import Mathlib

/- Mathlib marks the arithmetic of `Rat` irreducible to route proofs through
the algebraic structures.  The kernel ignores reducibility, so restoring the
default status only lets `decide` evaluate the executable definitions below
on concrete inputs; it changes no proof obligations. -/
set_option allowUnsafeReducibility true
attribute [semireducible] Rat.mul Rat.add Rat.sub Rat.div Rat.inv Rat.neg

/-!
Shallow embedding of the performance-analytics logic of `market_report.py`
(daily-market-agent).

Conventions used throughout:
* Prices are modelled as exact rationals (`ℚ`); a price series is the `Close`
  column of the fetched data frame, oldest bar first, so Python's
  `data['Close'].iloc[-(k+1)]` is element `length - 1 - k`.
* Python's `float` arithmetic is modelled exactly over `ℚ`; `round(x, 2)` is
  modelled as rounding half-to-even (CPython's rounding mode) of `x * 100`.
* A `ZeroDivisionError` raised by a percentage computation is modelled with
  `Except Unit`; the script's blanket `try/except` handlers are modelled by a
  wrapper that maps `.error` to the fallback value the handler returns.
* The script has no dedicated unavailability value: it returns the number `0`
  both for missing data and for timeframes with insufficient history.
-/

/-- The sentinel the script uses for unavailable prices and changes: the
number `0` (see the `return 0, 0, 0, 0, 0` fallbacks in
`get_multi_timeframe_change`). -/
def unavailable : ℚ := 0

/-- Round a rational to the nearest integer, halves to the even neighbour.
This is the rounding CPython's builtin `round` applies. -/
def roundHalfEven (q : ℚ) : ℤ :=
  let f := q.floor
  let r := q - (f : ℚ)
  if r < 1 / 2 then f
  else if 1 / 2 < r then f + 1
  else if f % 2 = 0 then f else f + 1

/-- Python's `round(x, 2)`: round to two decimal places. -/
def roundTo2 (q : ℚ) : ℚ := (roundHalfEven (q * 100) : ℚ) / 100

/-- Python's `int(x)`: truncation toward zero. -/
def pyInt (q : ℚ) : ℤ := if 0 ≤ q then q.floor else -(-q).floor

/-- Two-digit zero-padded decimal body built from a count of hundredths:
`fmtHundredths 420 = "4.20"`. -/
def fmtHundredths (n : ℕ) : String :=
  toString (n / 100) ++ "." ++ (if n % 100 < 10 then "0" else "") ++ toString (n % 100)

/-- Python's `f"{x:.2f}"` (two decimals, sign only when negative). -/
def fmt2 (q : ℚ) : String :=
  let n := roundHalfEven (q * 100)
  (if n < 0 then "-" else "") ++ fmtHundredths n.natAbs

/-- Python's `f"{x:+.2f}"` (two decimals, explicit sign). -/
def fmtSigned2 (q : ℚ) : String :=
  let n := roundHalfEven (q * 100)
  (if n < 0 then "-" else "+") ++ fmtHundredths n.natAbs

/-- Python's `f"{x:.1f}"` (one decimal, sign only when negative). -/
def fmt1 (q : ℚ) : String :=
  let n := roundHalfEven (q * 10)
  (if n < 0 then "-" else "") ++ toString (n.natAbs / 10) ++ "." ++ toString (n.natAbs % 10)

/-- Result tuple of `get_multi_timeframe_change`:
`(current_price, 1day%, 1week%, 3month%, 6month%)`. -/
structure MTF where
  price : ℚ
  day1 : ℚ
  week1 : ℚ
  month3 : ℚ
  month6 : ℚ
  deriving DecidableEq, Repr

/-- `data['Close'].iloc[-(k+1)]`: the reference close `k` bars before the
latest bar (meaningful when `k + 1 ≤ closes.length`). -/
def refClose (closes : List ℚ) (k : ℕ) : ℚ := closes.getD (closes.length - 1 - k) 0

/-- `data['Close'].iloc[-1]`: the latest close (meaningful when the series is
non-empty). -/
def lastClose (closes : List ℚ) : ℚ := closes.getD (closes.length - 1) 0

/-- One guarded timeframe computation of `get_multi_timeframe_change`
(lines 119-141): when at least `k+1` bars exist, compute
`round((current - ref) / ref * 100, 2)`, where a zero reference close makes
the division raise `ZeroDivisionError` (modelled as `.error ()`); with fewer
bars the change keeps its `0` initialisation. -/
def changeAt (closes : List ℚ) (current : ℚ) (k : ℕ) : Except Unit ℚ :=
  if k + 1 ≤ closes.length then
    if refClose closes k = 0 then .error ()
    else .ok (roundTo2 ((current - refClose closes k) / refClose closes k * 100))
  else .ok 0

/-- Body of the `try` block of `get_multi_timeframe_change` (lines 105-144):
fewer than 2 bars short-circuits to the all-zero tuple; otherwise the four
timeframe changes are computed in order, and a raised `ZeroDivisionError`
aborts the rest of the block (the nested matches are exactly exception
propagation). -/
def get_multi_timeframe_change_core (closes : List ℚ) : Except Unit MTF :=
  if closes.length < 2 then .ok ⟨0, 0, 0, 0, 0⟩
  else
    match changeAt closes (lastClose closes) 1 with
    | .error e => .error e
    | .ok d1 =>
      match changeAt closes (lastClose closes) 5 with
      | .error e => .error e
      | .ok w1 =>
        match changeAt closes (lastClose closes) 63 with
        | .error e => .error e
        | .ok m3 =>
          match changeAt closes (lastClose closes) 126 with
          | .error e => .error e
          | .ok m6 => .ok ⟨lastClose closes, d1, w1, m3, m6⟩

/-- `get_multi_timeframe_change` (lines 100-148): the `except` handler turns
any raised error into the `(0, 0, 0, 0, 0)` fallback tuple. -/
def get_multi_timeframe_change (closes : List ℚ) : MTF :=
  match get_multi_timeframe_change_core closes with
  | .ok r => r
  | .error _ => ⟨0, 0, 0, 0, 0⟩

/-- Selects the change component of an `MTF` tuple belonging to lookback
offset `k` (1 bar, 5 bars, 63 bars, 126 bars). -/
def mtfSel : ℕ → MTF → ℚ
  | 1, r => r.day1
  | 5, r => r.week1
  | 63, r => r.month3
  | _, r => r.month6

/-- The four lookback offsets (in trading bars) the script computes. -/
def supportedOffsets : List ℕ := [1, 5, 63, 126]

/-- Every reference close that the script actually divides by (those of
offsets with enough history) is nonzero, i.e. no `ZeroDivisionError` occurs. -/
def refsNonzero (closes : List ℚ) : Prop :=
  ∀ k ∈ supportedOffsets, k + 1 ≤ closes.length → refClose closes k ≠ 0

instance (closes : List ℚ) : Decidable (refsNonzero closes) :=
  inferInstanceAs (Decidable (∀ k ∈ supportedOffsets, k + 1 ≤ closes.length → refClose closes k ≠ 0))

/-- A per-symbol performance tuple
`(sym, current_price, day_1_change, week_1_change, month_3_change, month_6_change)`
as appended to `perf` by the ranking functions. -/
structure PerfRec where
  sym : String
  price : ℚ
  day1 : ℚ
  week1 : ℚ
  month3 : ℚ
  month6 : ℚ
  deriving DecidableEq, Repr

/-- Body of the per-symbol `try` block of `get_daily_top_gainers`
(lines 153-195): fewer than 2 bars means `continue` (no record); a raised
`ZeroDivisionError` is the error case. -/
def perfRecordTopCore (sym : String) (closes : List ℚ) : Except Unit (Option PerfRec) :=
  if closes.length < 2 then .ok none
  else
    match changeAt closes (lastClose closes) 1 with
    | .error e => .error e
    | .ok d1 =>
      match changeAt closes (lastClose closes) 5 with
      | .error e => .error e
      | .ok w1 =>
        match changeAt closes (lastClose closes) 63 with
        | .error e => .error e
        | .ok m3 =>
          match changeAt closes (lastClose closes) 126 with
          | .error e => .error e
          | .ok m6 => .ok (some ⟨sym, lastClose closes, d1, w1, m3, m6⟩)

/-- Per-symbol record of `get_daily_top_gainers`: the `except` handler turns a
raised error into `continue`, i.e. no record. -/
def perfRecordTop (sym : String) (closes : List ℚ) : Option PerfRec :=
  match perfRecordTopCore sym closes with
  | .ok r => r
  | .error _ => none

/-- Body of the per-symbol `try` block of `get_daily_bottom_performers`
(lines 208-248), a verbatim duplicate of the one in `get_daily_top_gainers`. -/
def perfRecordBottomCore (sym : String) (closes : List ℚ) : Except Unit (Option PerfRec) :=
  if closes.length < 2 then .ok none
  else
    match changeAt closes (lastClose closes) 1 with
    | .error e => .error e
    | .ok d1 =>
      match changeAt closes (lastClose closes) 5 with
      | .error e => .error e
      | .ok w1 =>
        match changeAt closes (lastClose closes) 63 with
        | .error e => .error e
        | .ok m3 =>
          match changeAt closes (lastClose closes) 126 with
          | .error e => .error e
          | .ok m6 => .ok (some ⟨sym, lastClose closes, d1, w1, m3, m6⟩)

/-- Per-symbol record of `get_daily_bottom_performers`. -/
def perfRecordBottom (sym : String) (closes : List ℚ) : Option PerfRec :=
  match perfRecordBottomCore sym closes with
  | .ok r => r
  | .error _ => none

/-- Descending order on the 1-day change, the key of
`perf.sort(key=lambda x: x[2], reverse=True)`. -/
def descD1 (a b : PerfRec) : Prop := b.day1 ≤ a.day1

instance : DecidableRel descD1 := fun a b => inferInstanceAs (Decidable (b.day1 ≤ a.day1))

/-- Ascending order on the 1-day change, the key of
`perf.sort(key=lambda x: x[2])`. -/
def ascD1 (a b : PerfRec) : Prop := a.day1 ≤ b.day1

instance : DecidableRel ascD1 := fun a b => inferInstanceAs (Decidable (a.day1 ≤ b.day1))

instance : IsTotal PerfRec descD1 := ⟨fun a b => le_total b.day1 a.day1⟩

instance : IsTrans PerfRec descD1 := ⟨fun _ _ _ h1 h2 => le_trans h2 h1⟩

instance : IsTotal PerfRec ascD1 := ⟨fun a b => le_total a.day1 b.day1⟩

instance : IsTrans PerfRec ascD1 := ⟨fun _ _ _ h1 h2 => le_trans h1 h2⟩

/-- The `perf` list collected by `get_daily_top_gainers`: one record per
symbol whose fetch produced at least 2 bars and raised nothing.  A symbol's
fetched series is supplied alongside it, abstracting the `yf.download` call. -/
def evaluated_pool (quotes : List (String × List ℚ)) : List PerfRec :=
  quotes.filterMap (fun q => perfRecordTop q.1 q.2)

/-- `get_daily_top_gainers` (lines 150-203).  Python's `list.sort` is a
stable sort, modelled by insertion sort; the empty-`perf` early return is
subsumed by `take` on the empty list. -/
def get_daily_top_gainers (quotes : List (String × List ℚ)) (top_n : ℕ) : List PerfRec :=
  (List.insertionSort descD1 (evaluated_pool quotes)).take top_n

/-- The `perf` list collected by `get_daily_bottom_performers`. -/
def evaluated_pool_bottom (quotes : List (String × List ℚ)) : List PerfRec :=
  quotes.filterMap (fun q => perfRecordBottom q.1 q.2)

/-- `get_daily_bottom_performers` (lines 205-255): same collection, sorted
ascending by 1-day change. -/
def get_daily_bottom_performers (quotes : List (String × List ℚ)) (bottom_n : ℕ) : List PerfRec :=
  (List.insertionSort ascD1 (evaluated_pool_bottom quotes)).take bottom_n

/-- Line 367: `all_stock_performance = get_daily_top_gainers(all_stocks,
top_n=len(all_stocks))` — the whole universe, ranked. -/
def all_stock_performance (quotes : List (String × List ℚ)) : List PerfRec :=
  get_daily_top_gainers quotes quotes.length

/-- Lines 370-372: `[s for s in all_stock_performance if s[0] in caps]` —
membership filter over the already-ranked pool. -/
def cap_performance (pool : List PerfRec) (caps : List String) : List PerfRec :=
  pool.filter (fun s => caps.contains s.sym)

/-- Lines 375-377: `cap_performance[:n]` — the per-tier leaderboard. -/
def top_n_cap (pool : List PerfRec) (caps : List String) (n : ℕ) : List PerfRec :=
  (cap_performance pool caps).take n

/-- The "Market Breadth" stat box of the HTML report (line 568):
`len([s for s in all_stock_performance if s[2] > 0]) / len(all_stock_performance) * 100`.
The division has no zero guard, so an empty pool raises `ZeroDivisionError`
(modelled as `.error ()`), outside any `try` block. -/
def market_breadth_stat (pool : List PerfRec) : Except Unit ℚ :=
  if pool.length = 0 then .error ()
  else .ok (((pool.filter (fun s => decide (s.day1 > 0))).length : ℚ) / (pool.length : ℚ) * 100)

/-- Lines 420-426: the commodity momentum rule — fires on the top commodity
when its 1-day change exceeds 3%. -/
def commodity_momentum_rule (commodities : List PerfRec) : List String :=
  match commodities with
  | [] => []
  | top :: _ =>
    if top.day1 > 3 then
      ["🟢 <strong>Commodity Momentum:</strong> " ++ top.sym ++
        " is showing strong daily momentum with a " ++ fmtSigned2 top.day1 ++
        "% gain. 6-month trend: " ++ fmtSigned2 top.month6 ++ "%."]
    else []

/-- Lines 428-429: the commodity weakness rule — fires on the last (worst)
commodity when its 1-day change is below -3%. -/
def commodity_weakness_rule (commodities : List PerfRec) : List String :=
  match commodities with
  | [] => []
  | c :: cs =>
    let worst := (c :: cs).getLastD c
    if worst.day1 < -3 then
      ["🔴 <strong>Commodity Weakness:</strong> " ++ worst.sym ++ " declined " ++
        fmt2 worst.day1 ++ "% today. However, check 3-month trend (" ++
        fmtSigned2 worst.month3 ++ "%) for longer-term context."]
    else []

/-- Lines 432-442: large-cap rules (leaders when the top-3 average beats 2%,
broad strength when at least 5 large caps are up more than 1.5%). -/
def large_cap_insights (large : List PerfRec) : List String :=
  match large with
  | [] => []
  | t :: rest =>
    if (t :: rest).length ≥ 3 then
      let top_3_avg := (((t :: rest).take 3).map PerfRec.day1).sum / 3
      (if top_3_avg > 2 then
        ["📈 <strong>Large Cap Leaders:</strong> " ++ t.sym ++ " leading with " ++
          fmtSigned2 t.day1 ++ "% daily, " ++ fmtSigned2 t.week1 ++
          "% weekly. Strong consistent momentum across timeframes."]
      else []) ++
      (let consistent_gainers := (t :: rest).filter (fun s => decide (s.day1 > 1.5))
      if consistent_gainers.length ≥ 5 then
        ["💚 <strong>Broad Market Strength:</strong> " ++ toString consistent_gainers.length ++
          " large caps up >1.5% today. Positive market sentiment favors equity exposure."]
      else [])
    else []

/-- Lines 445-452: mid-cap rule — hot pick vs opportunity depending on the
6-month trend. -/
def mid_cap_insights (mid : List PerfRec) : List String :=
  match mid with
  | [] => []
  | top :: _ =>
    if top.day1 > 3 then
      if top.month6 > 15 then
        ["🚀 <strong>Mid Cap Hot Pick:</strong> " ++ top.sym ++ " surged " ++
          fmtSigned2 top.day1 ++ "% today with strong 6-month gains of " ++
          fmtSigned2 top.month6 ++ "%. Sustained uptrend."]
      else
        ["🚀 <strong>Mid Cap Opportunity:</strong> " ++ top.sym ++ " jumped " ++
          fmtSigned2 top.day1 ++ "% today. Check 3M/6M trends before entry - may be volatile."]
    else []

/-- Lines 455-465: small-cap rules (breakout above 5%, plus the small-vs-large
outperformance comparison, both guarded by `if small_caps:`). -/
def small_cap_insights (small large : List PerfRec) : List String :=
  match small with
  | [] => []
  | top :: _ =>
    (if top.day1 > 5 then
      ["💎 <strong>Small Cap Breakout:</strong> " ++ top.sym ++ " spiked " ++
        fmtSigned2 top.day1 ++ "% today. High volatility - only for risk-tolerant investors."]
    else []) ++
    (match large with
    | [] => []
    | _ =>
      let small_avg := ((small.take 3).map PerfRec.day1).sum / 3
      let large_avg := ((large.take 3).map PerfRec.day1).sum / 3
      if small_avg > large_avg + 2 then
        ["🔥 <strong>Small Cap Outperformance:</strong> Small caps significantly outperforming large caps (avg "
          ++ fmt1 small_avg ++ "% vs " ++ fmt1 large_avg ++ "%). Risk-on market mode."]
      else [])

/-- Lines 468-481: bottom-performer rules (structural decline / sharp drop on
the worst stock, market weakness when at least 3 heavy losers). -/
def bottom_insights (bottom : List PerfRec) : List String :=
  match bottom with
  | [] => []
  | worst :: rest =>
    if (worst :: rest).length ≥ 2 then
      (if worst.day1 < -5 then
        if worst.month6 < -20 then
          ["⚠️ <strong>Structural Decline:</strong> " ++ worst.sym ++ " down " ++
            fmt2 worst.day1 ++ "% today and " ++ fmt2 worst.month6 ++
            "% over 6 months. Avoid until fundamentals improve."]
        else
          ["⚠️ <strong>Sharp Drop Alert:</strong> " ++ worst.sym ++ " fell " ++
            fmt2 worst.day1 ++ "% today but 6M trend is " ++ fmtSigned2 worst.month6 ++
            "%. Could be temporary dip or warning sign - investigate."]
      else []) ++
      (let heavy_losers := (worst :: rest).filter (fun s => decide (s.day1 < -3))
      if heavy_losers.length ≥ 3 then
        ["🔻 <strong>Market Weakness Detected:</strong> " ++ toString heavy_losers.length ++
          " stocks down >3% today. Consider defensive positioning or profit booking."]
      else [])
    else []

/-- Lines 484-492: per-index week-over-week rules.  `indices` is the
insertion-ordered dict of index name to `(date, pct_change)` pairs. -/
def index_insights : List (String × List (String × ℚ)) → List String
  | [] => []
  | (idx_name, changes) :: rest =>
    (match changes with
    | [] => []
    | c :: cs =>
      let latest_change := ((c :: cs).getLastD c).2
      if latest_change > 2 then
        ["📊 <strong>" ++ idx_name ++ " Bullish:</strong> Index up " ++
          fmtSigned2 latest_change ++ "% week-over-week. Good for long-term SIP investments."]
      else if latest_change < -2 then
        ["📊 <strong>" ++ idx_name ++ " Bearish:</strong> Index down " ++
          fmt2 latest_change ++ "% week-over-week. Maintain cash reserves, wait for stabilization."]
      else []) ++ index_insights rest

/-- Lines 495-504: the market-sentiment (breadth-ratio) rule, guarded by
`if large_caps and mid_caps:`; uses `all_tracked = large + mid + small`. -/
def breadth_insights (large mid small : List PerfRec) : List String :=
  match large, mid with
  | l :: ls, m :: ms =>
    let all_tracked := (l :: ls) ++ (m :: ms) ++ small
    let total_gainers := (all_tracked.filter (fun s => decide (s.day1 > 0))).length
    let total_stocks := all_tracked.length
    let gainer_frac : ℚ := if total_stocks > 0 then (total_gainers : ℚ) / (total_stocks : ℚ) else 0
    if gainer_frac > 7 / 10 then
      ["🌟 <strong>Strong Market Breadth:</strong> " ++ toString (pyInt (gainer_frac * 100)) ++
        "% of stocks in the green. Broad strength favors momentum and growth strategies."]
    else if gainer_frac < 3 / 10 then
      ["🛡️ <strong>Weak Market Breadth:</strong> Only " ++ toString (pyInt (gainer_frac * 100)) ++
        "% positive. Consider defensive sectors (FMCG, Pharma) or quality large-caps."]
    else []
  | _, _ => []

/-- Line 507: the fixed advisory disclaimer, appended unconditionally. -/
def disclaimer_insight : String :=
  "<br><em><strong>⚠️ Disclaimer:</strong> These insights are based on price movements and technical indicators only. Always conduct thorough fundamental analysis, consider your risk tolerance, and consult a financial advisor before making investment decisions. Past performance does not guarantee future results.</em>"

/-- `generate_market_insights` (lines 415-509): the rule blocks append their
insights in source order, the disclaimer last. -/
def generate_market_insights (commodities large mid small bottom : List PerfRec)
    (indices : List (String × List (String × ℚ))) : List String :=
  commodity_momentum_rule commodities ++ commodity_weakness_rule commodities ++
  large_cap_insights large ++ mid_cap_insights mid ++ small_cap_insights small large ++
  bottom_insights bottom ++ index_insights indices ++ breadth_insights large mid small ++
  [disclaimer_insight]

/-- Comparison engine for the absent-small-cap property: the same rule
evaluation with the two small-cap rules removed and small caps absent from
the breadth pool.  Used only to state that an absent small-cap leaderboard
changes no other rule's output. -/
def generate_market_insights_no_small (commodities large mid bottom : List PerfRec)
    (indices : List (String × List (String × ℚ))) : List String :=
  commodity_momentum_rule commodities ++ commodity_weakness_rule commodities ++
  large_cap_insights large ++ mid_cap_insights mid ++
  bottom_insights bottom ++ index_insights indices ++ breadth_insights large mid [] ++
  [disclaimer_insight]

/-! ## Helper lemmas -/

theorem changeAt_ok_of_nonzero (closes : List ℚ) (cur : ℚ) (k : ℕ)
    (hnz : k + 1 ≤ closes.length → refClose closes k ≠ 0) :
    changeAt closes cur k = .ok (if k + 1 ≤ closes.length then
      roundTo2 ((cur - refClose closes k) / refClose closes k * 100) else 0) := by
  unfold changeAt
  by_cases h : k + 1 ≤ closes.length
  · rw [if_pos h, if_neg (hnz h), if_pos h]
  · rw [if_neg h, if_neg h]

theorem mtf_eval (closes : List ℚ) (h2 : 2 ≤ closes.length) (hnz : refsNonzero closes) :
    get_multi_timeframe_change closes = ⟨lastClose closes,
      (if 1 + 1 ≤ closes.length then
        roundTo2 ((lastClose closes - refClose closes 1) / refClose closes 1 * 100) else 0),
      (if 5 + 1 ≤ closes.length then
        roundTo2 ((lastClose closes - refClose closes 5) / refClose closes 5 * 100) else 0),
      (if 63 + 1 ≤ closes.length then
        roundTo2 ((lastClose closes - refClose closes 63) / refClose closes 63 * 100) else 0),
      (if 126 + 1 ≤ closes.length then
        roundTo2 ((lastClose closes - refClose closes 126) / refClose closes 126 * 100) else 0)⟩ := by
  unfold get_multi_timeframe_change get_multi_timeframe_change_core
  rw [if_neg (not_lt.mpr h2),
    changeAt_ok_of_nonzero closes _ 1 (hnz 1 (by decide)),
    changeAt_ok_of_nonzero closes _ 5 (hnz 5 (by decide)),
    changeAt_ok_of_nonzero closes _ 63 (hnz 63 (by decide)),
    changeAt_ok_of_nonzero closes _ 126 (hnz 126 (by decide))]

/-! ## C1: percentage-change formula for supported offsets -/

/-- C1 (counterexample): the claim fails as stated.  For the non-empty series
`[0, 1, 1, 1, 1, 2]` and the supported offset `k = 1 < 6 = len(S)`, the
returned 1-day change is not `(S[-1] - S[-2]) / S[-2] * 100` rounded to two
decimals (which is `100`): the 1-week reference close is `0`, so the whole
computation raises and falls back to the all-zero tuple. -/
theorem change_formula_zero_ref_counterexample :
    ¬ (mtfSel 1 (get_multi_timeframe_change [0, 1, 1, 1, 1, 2]) =
      roundTo2 ((lastClose [0, 1, 1, 1, 1, 2] - refClose [0, 1, 1, 1, 1, 2] 1) /
        refClose [0, 1, 1, 1, 1, 2] 1 * 100)) := by
  decide

/-- C1 (amended): for every price series and every supported offset
`k ∈ {1, 5, 63, 126}` with `k < len(S)`, provided no reference close of an
evaluated timeframe is zero, the returned change for `k` equals
`(S[-1] - S[-1-k]) / S[-1-k] * 100` rounded (half-to-even) to 2 decimals. -/
theorem change_formula_of_refs_nonzero (closes : List ℚ) (k : ℕ)
    (hk : k ∈ supportedOffsets) (hlen : k + 1 ≤ closes.length) (hnz : refsNonzero closes) :
    mtfSel k (get_multi_timeframe_change closes) =
      roundTo2 ((lastClose closes - refClose closes k) / refClose closes k * 100) := by
  simp only [supportedOffsets, List.mem_cons, List.not_mem_nil, or_false] at hk
  rcases hk with rfl | rfl | rfl | rfl <;>
    rw [mtf_eval closes (by omega) hnz] <;>
    simp only [mtfSel] <;>
    rw [if_pos hlen]

/-- C1 (witness): the amended claim at the concrete series `[100, 105]`,
offset 1: the 1-day change is `+5.00`. -/
theorem change_formula_of_refs_nonzero_witness :
    mtfSel 1 (get_multi_timeframe_change [100, 105]) =
      roundTo2 ((lastClose [100, 105] - refClose [100, 105] 1) / refClose [100, 105] 1 * 100) :=
  change_formula_of_refs_nonzero [100, 105] 1 (by decide) (by decide) (by decide)

/-! ## C2: empty series -/

/-- C2: for the empty price series the computation returns the unavailability
sentinel (the number `0`) for the current price and for every timeframe
change, and its body completes without raising. -/
theorem empty_series_all_unavailable :
    get_multi_timeframe_change [] =
      ⟨unavailable, unavailable, unavailable, unavailable, unavailable⟩ ∧
    get_multi_timeframe_change_core [] =
      .ok ⟨unavailable, unavailable, unavailable, unavailable, unavailable⟩ := by
  constructor <;> rfl

/-! ## C3: insufficient history for a timeframe -/

/-- C3 (counterexample): the claim fails as stated.  For the non-empty
single-bar series `[10]` and any offset `k` with `len(S) < k + 1`, the
computation does not return `S[-1].close = 10` as the current price: the
`len(data) < 2` guard returns the all-zero fallback tuple instead. -/
theorem single_bar_price_counterexample :
    (get_multi_timeframe_change [(10 : ℚ)]).price ≠ lastClose [(10 : ℚ)] := by
  decide

/-- C3 (amended): for every series with at least 2 bars whose evaluated
reference closes are all nonzero, and every supported offset `k` with
`len(S) < k + 1`, the computation returns the latest close as the current
price and the `0` unavailability sentinel for that timeframe's change. -/
theorem short_history_partial_result (closes : List ℚ) (k : ℕ)
    (hk : k ∈ supportedOffsets) (h2 : 2 ≤ closes.length)
    (hshort : closes.length < k + 1) (hnz : refsNonzero closes) :
    (get_multi_timeframe_change closes).price = lastClose closes ∧
      mtfSel k (get_multi_timeframe_change closes) = unavailable := by
  rw [mtf_eval closes h2 hnz]
  refine ⟨rfl, ?_⟩
  simp only [supportedOffsets, List.mem_cons, List.not_mem_nil, or_false] at hk
  rcases hk with rfl | rfl | rfl | rfl <;>
    simp only [mtfSel] <;>
    first
      | exact absurd h2 (by omega)
      | rw [if_neg (by omega)]; rfl

/-- C3 (witness): the amended claim at the series `[100, 105]`, offset 5:
the current price is the latest close and the 1-week change is the sentinel. -/
theorem short_history_partial_result_witness :
    (get_multi_timeframe_change [100, 105]).price = lastClose [100, 105] ∧
      mtfSel 5 (get_multi_timeframe_change [100, 105]) = unavailable :=
  short_history_partial_result [100, 105] 5 (by decide) (by decide) (by decide) (by decide)

/-! ## C4: zero reference close -/

/-- C4: for every series in which the reference close of a supported,
evaluated offset `k` is exactly zero, the computation returns the `0`
unavailability sentinel for that timeframe's change: the raised
`ZeroDivisionError` is caught by the handler and never escapes, and no
infinite value is produced (the result is the exact rational `0`). -/
theorem zero_reference_change_unavailable (closes : List ℚ) (k : ℕ)
    (hk : k ∈ supportedOffsets) (hlen : k + 1 ≤ closes.length)
    (h0 : refClose closes k = 0) :
    mtfSel k (get_multi_timeframe_change closes) = unavailable := by
  simp only [supportedOffsets, List.mem_cons, List.not_mem_nil, or_false] at hk
  have hres : get_multi_timeframe_change closes = ⟨0, 0, 0, 0, 0⟩ := by
    have h2 : ¬ closes.length < 2 := by omega
    have herr : changeAt closes (lastClose closes) k = .error () := by
      unfold changeAt
      rw [if_pos hlen, if_pos h0]
    unfold get_multi_timeframe_change get_multi_timeframe_change_core
    rw [if_neg h2]
    rcases hk with rfl | rfl | rfl | rfl <;> rw [herr]
    · cases e1 : changeAt closes (lastClose closes) 1 <;> rfl
    · cases e1 : changeAt closes (lastClose closes) 1 <;>
        cases e5 : changeAt closes (lastClose closes) 5 <;> rfl
    · cases e1 : changeAt closes (lastClose closes) 1 <;>
        cases e5 : changeAt closes (lastClose closes) 5 <;>
          cases e63 : changeAt closes (lastClose closes) 63 <;> rfl
  rw [hres]
  rcases hk with rfl | rfl | rfl | rfl <;> rfl

/-- C4 (witness): the series `[0, 5]` has a zero 1-day reference close; the
1-day change comes back as the sentinel `0`. -/
theorem zero_reference_change_unavailable_witness :
    mtfSel 1 (get_multi_timeframe_change [0, 5]) = unavailable :=
  zero_reference_change_unavailable [0, 5] 1 (by decide) (by decide) (by decide)

/-! ## C5: ranking order and tie-breaking -/

/-- C5 (counterexample): the claim fails as stated.  Ranking the quotes whose
1-day changes are `[5.0, 5.0, 3.0, -1.0]` with identifiers
`["B", "A", "C", "D"]` as gainers with limit 3 returns B before A (stable
sort keeps the tie in input order), not the claimed identifier-ascending
`[A, B, C]`. -/
theorem ranking_ties_identifier_counterexample :
    (get_daily_top_gainers
        [("B", [100, 105]), ("A", [100, 105]), ("C", [100, 103]), ("D", [100, 99])] 3).map
      PerfRec.sym = ["B", "A", "C"] ∧
    ¬ (get_daily_top_gainers
        [("B", [100, 105]), ("A", [100, 105]), ("C", [100, 103]), ("D", [100, 99])] 3).map
      PerfRec.sym = ["A", "B", "C"] := by
  constructor <;> decide

/-- C5 (amended): ranking sorts by the 1-day percentage change — descending
for gainers, ascending for losers — and breaks ties by keeping the input
order (Python's `list.sort` is stable), not by identifier; ranking records
with 1-day changes `[5.0, 5.0, 3.0, -1.0]` and identifiers
`["B", "A", "C", "D"]` as gainers with limit 3 returns
`[B(5.0), A(5.0), C(3.0)]`. -/
theorem ranking_sorted_ties_input_order :
    (get_daily_top_gainers
        [("B", [100, 105]), ("A", [100, 105]), ("C", [100, 103]), ("D", [100, 99])] 3 =
      [⟨"B", 105, 5, 0, 0, 0⟩, ⟨"A", 105, 5, 0, 0, 0⟩, ⟨"C", 103, 3, 0, 0, 0⟩]) ∧
    (∀ (quotes : List (String × List ℚ)) (n : ℕ),
      (get_daily_top_gainers quotes n).Sorted descD1) ∧
    (∀ (quotes : List (String × List ℚ)) (n : ℕ),
      (get_daily_bottom_performers quotes n).Sorted ascD1) := by
  refine ⟨by decide, fun quotes n => ?_, fun quotes n => ?_⟩
  · exact List.Pairwise.sublist (List.take_sublist _ _) (List.sorted_insertionSort descD1 _)
  · exact List.Pairwise.sublist (List.take_sublist _ _) (List.sorted_insertionSort ascD1 _)

/-! ## C6: per-group rankings filter the ranked full pool -/

/-- C6: each cap tier's ranking is the pure membership filter of the already
ranked full pool, so it is a sublist of the full ranking (same relative
order), and any record of the overall top-`n` whose symbol belongs to the
tier appears in the tier's leaderboard whenever the tier limit `m` covers the
tier's records. -/
theorem group_ranking_consistent (quotes : List (String × List ℚ))
    (grp : List String) (n m : ℕ) (x : PerfRec) :
    (top_n_cap (all_stock_performance quotes) grp m).Sublist (all_stock_performance quotes) ∧
    (x ∈ (all_stock_performance quotes).take n → grp.contains x.sym = true →
      (cap_performance (all_stock_performance quotes) grp).length ≤ m →
      x ∈ top_n_cap (all_stock_performance quotes) grp m) := by
  constructor
  · exact (List.take_sublist _ _).trans (List.filter_sublist _)
  · intro hx hg hm
    unfold top_n_cap
    rw [List.take_of_length_le hm]
    exact List.mem_filter.mpr ⟨List.take_subset _ _ hx, hg⟩

/-- C6 (witness): with pool `[A(+5%), B(+3%)]` and tier `["A"]`, the overall
top-1 record A also appears in the tier's top-1. -/
theorem group_ranking_consistent_witness :
    (⟨"A", 105, 5, 0, 0, 0⟩ : PerfRec) ∈
      top_n_cap (all_stock_performance [("A", [100, 105]), ("B", [100, 103])]) ["A"] 1 :=
  (group_ranking_consistent [("A", [100, 105]), ("B", [100, 103])] ["A"] 1 1
    ⟨"A", 105, 5, 0, 0, 0⟩).2 (by decide) (by decide) (by decide)

/-! ## C7: market breadth over an empty pool -/

/-- C7: the report's market-breadth statistic is
`count(day1 > 0) / count(evaluated) * 100` over the evaluated pool
(records skipped as unavailable never enter the pool), but on a pool with
zero evaluated records the unguarded division raises `ZeroDivisionError`
instead of producing an unavailability sentinel: the code crashes there. -/
theorem market_breadth_zero_pool_divzero :
    market_breadth_stat [] = .error () ∧
    ∀ (r : PerfRec) (rs : List PerfRec),
      market_breadth_stat (r :: rs) =
        .ok ((((r :: rs).filter (fun s => decide (s.day1 > 0))).length : ℚ) /
          ((r :: rs).length : ℚ) * 100) := by
  refine ⟨rfl, fun r rs => ?_⟩
  unfold market_breadth_stat
  rw [if_neg (by simp)]

/-! ## C8: disclaimer always present and last; absent small caps -/

/-- C8: for every input the insight list is non-empty with the fixed
disclaimer as its last element, and with no small-cap leaderboard the
small-cap rules are skipped while every other rule produces exactly what the
engine without the small-cap rules produces. -/
theorem insights_disclaimer_last_no_small_independent
    (c l m s b : List PerfRec) (i : List (String × List (String × ℚ))) :
    generate_market_insights c l m s b i ≠ [] ∧
    (generate_market_insights c l m s b i).getLast? = some disclaimer_insight ∧
    generate_market_insights c l m [] b i = generate_market_insights_no_small c l m b i := by
  have hlast : (generate_market_insights c l m s b i).getLast? = some disclaimer_insight :=
    List.getLast?_concat _
  refine ⟨?_, hlast, ?_⟩
  · intro h
    rw [h] at hlast
    exact Option.noConfusion hlast
  · unfold generate_market_insights generate_market_insights_no_small
    rw [show small_cap_insights [] l = [] from rfl, List.append_nil]

/-! ## C9: the commodity momentum rule at +4.2% -/

theorem string_data_append (a b : String) : (a ++ b).data = a.data ++ b.data := rfl

theorem infix_append_left {α : Type} {l m : List α} (x : List α) (h : l <:+: m) :
    l <:+: x ++ m := by
  obtain ⟨s, t, rfl⟩ := h
  exact ⟨x ++ s, t, by simp [List.append_assoc]⟩

theorem infix_append_right {α : Type} {l m : List α} (h : l <:+: m) (y : List α) :
    l <:+: m ++ y := by
  obtain ⟨s, t, rfl⟩ := h
  exact ⟨s, t ++ y, by simp [List.append_assoc]⟩

/-- C9: whenever the top commodity's 1-day change is exactly +4.2%, the
momentum rule (threshold `> 3`) fires exactly one insight, and that insight's
text contains the sign-prefixed two-decimal rendering `+4.20%`. -/
theorem commodity_momentum_fires_once (top : PerfRec) (rest : List PerfRec)
    (h : top.day1 = 42 / 10) :
    (commodity_momentum_rule (top :: rest)).length = 1 ∧
    ∀ s ∈ commodity_momentum_rule (top :: rest), ("+4.20%").data <:+: s.data := by
  have hrule : commodity_momentum_rule (top :: rest) =
      ["🟢 <strong>Commodity Momentum:</strong> " ++ top.sym ++
        " is showing strong daily momentum with a " ++ fmtSigned2 top.day1 ++
        "% gain. 6-month trend: " ++ fmtSigned2 top.month6 ++ "%."] := by
    simp only [commodity_momentum_rule]
    rw [if_pos (show top.day1 > 3 by rw [h]; norm_num)]
  rw [hrule, h]
  have h420 : fmtSigned2 ((42 : ℚ) / 10) = "+4.20" := by decide
  rw [h420]
  refine ⟨rfl, ?_⟩
  intro s hs
  rw [List.mem_singleton] at hs
  subst hs
  simp only [string_data_append, List.append_assoc]
  apply infix_append_left
  apply infix_append_left
  apply infix_append_left
  rw [← List.append_assoc]
  exact infix_append_right (by decide) _

/-- C9 (witness): a commodity leaderboard headed by Gold at +4.2%. -/
theorem commodity_momentum_fires_once_witness :
    (commodity_momentum_rule [⟨"Gold", 100, 42 / 10, 0, 0, 0⟩]).length = 1 ∧
    ∀ s ∈ commodity_momentum_rule [⟨"Gold", 100, 42 / 10, 0, 0, 0⟩],
      ("+4.20%").data <:+: s.data :=
  commodity_momentum_fires_once ⟨"Gold", 100, 42 / 10, 0, 0, 0⟩ [] rfl

/-! ## C10: top gainers and bottom performers are mirror rankings -/

theorem perfRecord_bottom_eq_top : perfRecordBottom = perfRecordTop := by
  funext sym closes
  unfold perfRecordBottom perfRecordTop perfRecordBottomCore perfRecordTopCore
  rfl

/-- C10: the two ranking functions build identical per-symbol performance
tuples from the same price data, and on any fixed data whose collected 1-day
changes are pairwise distinct, ranking with limit equal to the pool size
yields lists that are exact reverses of each other. -/
theorem gainers_losers_reverse :
    perfRecordBottom = perfRecordTop ∧
    ∀ quotes : List (String × List ℚ),
      ((evaluated_pool quotes).map PerfRec.day1).Pairwise Ne →
      get_daily_bottom_performers quotes (evaluated_pool quotes).length =
        (get_daily_top_gainers quotes (evaluated_pool quotes).length).reverse := by
  refine ⟨perfRecord_bottom_eq_top, fun quotes hd => ?_⟩
  have hpool : evaluated_pool_bottom quotes = evaluated_pool quotes := by
    unfold evaluated_pool_bottom evaluated_pool
    rw [perfRecord_bottom_eq_top]
  unfold get_daily_bottom_performers get_daily_top_gainers
  rw [hpool]
  rw [List.take_of_length_le (le_of_eq (List.perm_insertionSort ascD1 _).length_eq),
    List.take_of_length_le (le_of_eq (List.perm_insertionSort descD1 _).length_eq)]
  have hdP : (evaluated_pool quotes).Pairwise (fun a b => a.day1 ≠ b.day1) :=
    List.pairwise_map.mp hd
  have hdA : (List.insertionSort ascD1 (evaluated_pool quotes)).Pairwise
      (fun a b => a.day1 ≠ b.day1) :=
    ((List.perm_insertionSort ascD1 _).pairwise_iff (fun hxy => Ne.symm hxy)).mpr hdP
  have hdD : (List.insertionSort descD1 (evaluated_pool quotes)).Pairwise
      (fun a b => a.day1 ≠ b.day1) :=
    ((List.perm_insertionSort descD1 _).pairwise_iff (fun hxy => Ne.symm hxy)).mpr hdP
  have sA : (List.insertionSort ascD1 (evaluated_pool quotes)).Pairwise
      (fun a b => a.day1 < b.day1) :=
    ((List.sorted_insertionSort ascD1 _).and hdA).imp
      (fun hab => lt_of_le_of_ne hab.1 hab.2)
  have sD : (List.insertionSort descD1 (evaluated_pool quotes)).Pairwise
      (fun a b => b.day1 < a.day1) :=
    ((List.sorted_insertionSort descD1 _).and hdD).imp
      (fun hab => lt_of_le_of_ne hab.1 (Ne.symm hab.2))
  have sRev : ((List.insertionSort descD1 (evaluated_pool quotes)).reverse).Pairwise
      (fun a b => a.day1 < b.day1) := List.pairwise_reverse.mpr sD
  have hperm : (List.insertionSort ascD1 (evaluated_pool quotes)).Perm
      ((List.insertionSort descD1 (evaluated_pool quotes)).reverse) :=
    (List.perm_insertionSort ascD1 _).trans
      ((List.perm_insertionSort descD1 _).symm.trans (List.reverse_perm _).symm)
  haveI : IsAntisymm PerfRec (fun a b => a.day1 < b.day1) :=
    ⟨fun a b hab hba => absurd hba (lt_asymm hab)⟩
  exact List.eq_of_perm_of_sorted hperm sA sRev

/-- C10 (witness): with quotes A(+5%) and B(+3%) the bottom ranking of the
whole pool is the reverse of the top ranking. -/
theorem gainers_losers_reverse_witness :
    get_daily_bottom_performers [("A", [100, 105]), ("B", [100, 103])]
        (evaluated_pool [("A", [100, 105]), ("B", [100, 103])]).length =
      (get_daily_top_gainers [("A", [100, 105]), ("B", [100, 103])]
        (evaluated_pool [("A", [100, 105]), ("B", [100, 103])]).length).reverse :=
  gainers_losers_reverse.2 [("A", [100, 105]), ("B", [100, 103])] (by decide)
